import Mathlib

/-!
Verification of the `bitcoin-prices` news pipeline (`info_agent.py`).

The program is a linear pipeline: generate a search query with an OpenAI
chat completion, search the Brave web-search API, format the raw results,
and insert the formatted records into a Supabase table.  Every external
call is modelled by an oracle supplied as a function argument; a call that
raises a Python exception is modelled by the oracle returning
`Except.error`, and the absence of any `try`/`except` in a method is
reflected by that method being written in the `Except` monad with no
handler.
-/

set_option maxHeartbeats 1000000

namespace InfoAgent

/-- One raw result record from the Brave search response.  Each of the
five fields a record may carry is optional: `none` models a key missing
from the Python dict, matching the `item.get(key, "")` accesses. -/
structure RawResult where
  title : Option String
  description : Option String
  url : Option String
  published : Option String
  source : Option String
deriving DecidableEq

/-- Exceptions that the underlying clients can raise and that the code
itself can raise: `reqException` models a raised network-client error
(for example `requests.exceptions.ConnectionError`), `indexError` the
`IndexError` from `response.choices[0]` on an empty choice list. -/
inductive PipeError where
  | reqException : PipeError
  | indexError : PipeError
deriving DecidableEq

/-- A chat message of the completion response. -/
structure ChatMessage where
  role : String
  content : String
deriving DecidableEq

/-- One completion choice of the OpenAI response. -/
structure Choice where
  message : ChatMessage
deriving DecidableEq

/-- The OpenAI chat-completion response: a list of choices. -/
structure ChatResponse where
  choices : List Choice
deriving DecidableEq

/-- `InfoAgent.generate_search_query`: the remote call either raises
(`Except.error`, propagated — there is no handler in the method) or
returns a `ChatResponse`; the method takes `response.choices[0]` (an
`IndexError` when the list is empty) and returns
`message.content.strip()`. -/
def generate_search_query (response : Except PipeError ChatResponse) :
    Except PipeError String := do
  let r ← response
  match r.choices with
  | [] => Except.error PipeError.indexError
  | c :: _ => pure c.message.content.trim

/-- The nested `web` object of a Brave response body; its `results` key
may be missing. -/
structure WebObj where
  results : Option (List RawResult)
deriving DecidableEq

/-- The parsed JSON body of a Brave response; the `web` key may be
missing.  `data.get("web", {}).get("results", [])` reads it. -/
structure BraveBody where
  web : Option WebObj
deriving DecidableEq

/-- An HTTP response as seen by `search_brave`: a status code and the
parsed body. -/
structure HttpResponse where
  status_code : Nat
  body : BraveBody
deriving DecidableEq

/-- `InfoAgent.search_brave`: `requests.get` either raises
(`Except.error`, propagated — no handler in the method) or returns a
response.  On status 200 the nested `web.results` list is returned with
`{}` / `[]` defaults; on any other status the method prints an error and
returns `[]`. -/
def search_brave (response : Except PipeError HttpResponse) :
    Except PipeError (List RawResult) := do
  let r ← response
  if r.status_code = 200 then
    pure ((r.body.web.getD ⟨none⟩).results.getD [])
  else
    pure []

/-- The five-line formatted text built for one result inside
`extract_news_info` (lines 103-116 of `info_agent.py`): the five fields
with `""` defaults, rendered as the labelled lines
Title/Description/URL/Source/Published with no trailing newline. -/
def format_news_item (item : RawResult) : String :=
  "Title: " ++ item.title.getD "" ++ "\n" ++
  "Description: " ++ item.description.getD "" ++ "\n" ++
  "URL: " ++ item.url.getD "" ++ "\n" ++
  "Source: " ++ item.source.getD "" ++ "\n" ++
  "Published: " ++ item.published.getD ""

/-- `InfoAgent.extract_news_info`: the loop appends one formatted string
per input record, in input order. -/
def extract_news_info : List RawResult → List String
  | [] => []
  | item :: rest => format_news_item item :: extract_news_info rest

/-- The response object of one Supabase insert.  `data = none` models an
object without a `data` attribute (`hasattr(result, 'data')` false);
`data = some rows` models the attribute holding the list `rows`, which
is truthy exactly when non-empty. -/
structure InsertResp where
  data : Option (List String)
deriving DecidableEq

/-- The success test of `store_in_supabase`:
`hasattr(result, 'data') and result.data`. -/
def rowCounted (result : InsertResp) : Bool :=
  match result.data with
  | none => false
  | some rows => !rows.isEmpty

/-- The row inserted for one news item:
`{"timestamp": current_time, "finance_info": item}`. -/
structure StoredRow where
  timestamp : String
  finance_info : String
deriving DecidableEq

/-- The loop of `store_in_supabase`, with `k` the position of the next
item within the call.  `now k` is the value `datetime.now().isoformat()`
read at the `k`-th iteration; `insert k row` is the outcome of the
`k`-th `.insert(data).execute()` call, which either raises
(`Except.error`, propagated — no handler in the method) or returns a
response object.  A row is counted exactly when its response passes
`rowCounted`; otherwise the failure is printed and the loop continues. -/
def store_run (now : Nat → String)
    (insert : Nat → StoredRow → Except PipeError InsertResp) :
    Nat → List String → Except PipeError Nat
  | _, [] => pure 0
  | k, item :: rest => do
    let result ← insert k ⟨now k, item⟩
    let restCount ← store_run now insert (k + 1) rest
    pure ((if rowCounted result then 1 else 0) + restCount)

/-- `InfoAgent.store_in_supabase`: run the loop from position 0 and
return `success_count`. -/
def store_in_supabase (now : Nat → String)
    (insert : Nat → StoredRow → Except PipeError InsertResp)
    (news_items : List String) : Except PipeError Nat :=
  store_run now insert 0 news_items

/-- The external world of one pipeline run: `gen i` is the OpenAI
response at iteration `i`, `http q` the Brave response for query `q`,
`now i k` the clock value at row `k` of iteration `i`, and
`insert i k row` the Supabase response for row `k` of iteration `i`. -/
structure PipelineEnv where
  gen : Nat → Except PipeError ChatResponse
  http : String → Except PipeError HttpResponse
  now : Nat → Nat → String
  insert : Nat → Nat → StoredRow → Except PipeError InsertResp

/-- One loop body of `fetch_financial_news` at iteration `i`: generate a
query, search for it, format the results, store them, and return the
iteration's stored count. -/
def pipeline_iteration (env : PipelineEnv) (i : Nat) : Except PipeError Nat := do
  let query ← generate_search_query (env.gen i)
  let results ← search_brave (env.http query)
  let news_items := extract_news_info results
  store_in_supabase (env.now i) (env.insert i) news_items

/-- The `for i in range(num_queries)` loop of `fetch_financial_news`,
with `i` the current iteration index and the second argument the number
of iterations left; `total_stored` accumulates the per-iteration
counts. -/
def fetchGo (env : PipelineEnv) : Nat → Nat → Except PipeError Nat
  | _, 0 => pure 0
  | i, n + 1 => do
    let stored ← pipeline_iteration env i
    let rest ← fetchGo env (i + 1) n
    pure (stored + rest)

/-- `InfoAgent.fetch_financial_news`: run `num_queries` sequential
iterations starting at index 0 and return the accumulated total. -/
def fetch_financial_news (env : PipelineEnv) (num_queries : Nat) :
    Except PipeError Nat :=
  fetchGo env 0 num_queries

/-- The four environment variables read in `InfoAgent.__init__`;
`os.getenv` returns `none` when a variable is unset. -/
structure EnvVars where
  brave_api_key : Option String
  openai_api_key : Option String
  supabase_url : Option String
  supabase_key : Option String
deriving DecidableEq

/-- Python truthiness of an `os.getenv` result: `None` and `""` are
falsy. -/
def truthyStr (s : Option String) : Bool :=
  match s with
  | none => false
  | some v => !v.isEmpty

/-- The credential checks of `InfoAgent.__init__` (lines 19-29):
`raise ValueError(...)` when the Brave or OpenAI key is falsy, then when
the Supabase URL or key is falsy; otherwise the checks pass and
construction proceeds. -/
def infoAgentInit (env : EnvVars) : Except String EnvVars :=
  if !truthyStr env.brave_api_key || !truthyStr env.openai_api_key then
    Except.error "API keys for Brave or OpenAI not found in environment variables"
  else if !truthyStr env.supabase_url || !truthyStr env.supabase_key then
    Except.error "SUPABASE_URL or SUPABASE_KEY not found in environment variables"
  else
    Except.ok env

/-- Three sample raw results: one with all five fields, one missing
description/published/source, one missing every field. -/
def sampleResults : List RawResult :=
  [⟨some "Markets rally", some "Stocks up", some "https://a", some "2026-01-01", some "wire"⟩,
   ⟨some "Crypto news", none, some "https://b", none, none⟩,
   ⟨none, none, none, none, none⟩]

/-- A successful Brave response whose body has no `web` key: the shape a
zero-match search produces after the dict defaults. -/
def emptyOkResponse : HttpResponse := ⟨200, ⟨none⟩⟩

/-- An HTTP 500 response, body payload irrelevant. -/
def serverErrorResponse : HttpResponse :=
  ⟨500, ⟨some ⟨some [⟨some "t", none, none, none, none⟩]⟩⟩⟩

/-- A 200 body without the `web` key. -/
def bodyNoWeb : BraveBody := ⟨none⟩

/-- A 200 body whose `web` object has no `results` key. -/
def bodyNoResults : BraveBody := ⟨some ⟨none⟩⟩

/-- A fixed clock value for concrete runs. -/
def sampleNow : Nat → String := fun _ => "2026-01-01T00:00:00"

/-- Insert responses for a concrete batch: the first row's response has
an empty `data` list (a failure), every later row's a non-empty one. -/
def sampleResp : Nat → StoredRow → InsertResp :=
  fun k _ => if k = 0 then ⟨some []⟩ else ⟨some ["row"]⟩

/-- An insert oracle that always succeeds with a non-empty payload. -/
def sampleInsertOk : Nat → StoredRow → Except PipeError InsertResp :=
  fun _ _ => Except.ok ⟨some ["row"]⟩

/-- A chat response with a single choice. -/
def sampleChat : ChatResponse := ⟨[⟨⟨"assistant", "bitcoin price latest news"⟩⟩]⟩

/-- A 200 Brave response carrying exactly two results. -/
def twoResultsResponse : HttpResponse :=
  ⟨200, ⟨some ⟨some [⟨some "A", some "a", some "https://a", some "2026-01-01", some "s"⟩,
                     ⟨some "B", none, some "https://b", none, none⟩]⟩⟩⟩

/-- A pipeline environment in which every OpenAI call returns one
choice, every search returns two results, and every insert succeeds
with a non-empty data payload. -/
def samplePipelineEnv : PipelineEnv :=
  ⟨fun _ => Except.ok sampleChat,
   fun _ => Except.ok twoResultsResponse,
   fun _ _ => "2026-01-01T00:00:00",
   fun _ _ _ => Except.ok ⟨some ["row"]⟩⟩

/-- Environment variables with all four credentials present and
non-empty. -/
def envAllSet : EnvVars := ⟨some "bk", some "ok", some "https://x.supabase.co", some "sk"⟩

/-- Environment variables with the Brave key unset. -/
def envMissingBrave : EnvVars := ⟨none, some "ok", some "https://x.supabase.co", some "sk"⟩

end InfoAgent

deriving instance DecidableEq for Except

namespace InfoAgent

lemma extract_eq_map (results : List RawResult) :
    extract_news_info results = results.map format_news_item := by
  induction results with
  | nil => rfl
  | cons r rs ih => simp [extract_news_info, ih]

lemma extract_getD (results : List RawResult) (k : Nat) (h : k < results.length) :
    (extract_news_info results).getD k "" =
      format_news_item (results.getD k ⟨none, none, none, none, none⟩) := by
  induction results generalizing k with
  | nil => simp at h
  | cons r rs ih =>
    cases k with
    | zero => rfl
    | succ k =>
      have : (extract_news_info (r :: rs)).getD (k + 1) "" =
          (extract_news_info rs).getD k "" := rfl
      rw [this, List.getD_cons_succ]
      exact ih k (by simpa using h)

/-- Claim C1: `extract_news_info` is a pure, total function returning one
formatted string per input record in input order; each output is the
five labelled lines Title, Description, URL, Source, Published in that
fixed order, with every absent field rendered as an empty value on its
line. -/
theorem extract_news_info_formats (results : List RawResult) :
    (extract_news_info results).length = results.length ∧
    ∀ k : Nat, k < results.length →
      (extract_news_info results).getD k "" =
        "Title: " ++ (results.getD k ⟨none, none, none, none, none⟩).title.getD "" ++ "\n" ++
        "Description: " ++
          (results.getD k ⟨none, none, none, none, none⟩).description.getD "" ++ "\n" ++
        "URL: " ++ (results.getD k ⟨none, none, none, none, none⟩).url.getD "" ++ "\n" ++
        "Source: " ++ (results.getD k ⟨none, none, none, none, none⟩).source.getD "" ++ "\n" ++
        "Published: " ++ (results.getD k ⟨none, none, none, none, none⟩).published.getD "" := by
  refine ⟨by rw [extract_eq_map, List.length_map], fun k h => ?_⟩
  rw [extract_getD results k h]
  rfl

/-- Witness for C1: on the three sample results, `extract_news_info`
returns exactly 3 strings, and the second (which lacks description,
source and published) keeps all five lines with empty values. -/
theorem extract_news_info_formats_witness :
    (extract_news_info sampleResults).length = 3 ∧
    (extract_news_info sampleResults).getD 1 "" =
      "Title: Crypto news\nDescription: \nURL: https://b\nSource: \nPublished: " := by
  have h := extract_news_info_formats sampleResults
  exact ⟨h.1, (h.2 1 (by decide)).trans (by decide)⟩

/-- Claim C7: on empty input `extract_news_info` returns the empty list
and `store_in_supabase` returns 0 for every insert oracle — including
one that would raise on any call, so no insert call is issued. -/
theorem empty_input_results (now : Nat → String)
    (insert : Nat → StoredRow → Except PipeError InsertResp) :
    extract_news_info [] = [] ∧
    store_in_supabase now insert [] = Except.ok 0 ∧
    store_in_supabase now (fun _ _ => Except.error PipeError.reqException) [] = Except.ok 0 :=
  ⟨rfl, rfl, rfl⟩

/-- Claim C6: `generate_search_query` propagates any error of the remote
call, fails with an index error when the response has no choices, and
otherwise returns the trimmed message content of the first choice — no
local fallback query exists. -/
theorem generate_search_query_spec :
    (∀ e : PipeError, generate_search_query (Except.error e) = Except.error e) ∧
    generate_search_query (Except.ok ⟨[]⟩) = Except.error PipeError.indexError ∧
    ∀ (c : Choice) (rest : List Choice),
      generate_search_query (Except.ok ⟨c :: rest⟩) = Except.ok c.message.content.trim :=
  ⟨fun _ => rfl, rfl, fun _ _ => rfl⟩

/-- Claim C3: a search whose HTTP response has any status other than 200
returns the empty list without raising, and the result is
indistinguishable from a successful search with zero matches. -/
theorem search_brave_non_success (r : HttpResponse) (h : r.status_code ≠ 200) :
    search_brave (Except.ok r) = Except.ok [] ∧
    search_brave (Except.ok r) = search_brave (Except.ok emptyOkResponse) := by
  have h1 : search_brave (Except.ok r) = Except.ok [] := by
    show (if r.status_code = 200 then
        Except.ok ((r.body.web.getD ⟨none⟩).results.getD []) else Except.ok [])
      = Except.ok []
    rw [if_neg h]
  exact ⟨h1, h1.trans rfl⟩

/-- Witness for C3: an HTTP 500 response (with a non-empty body payload)
yields the empty list, equal to the zero-match success result. -/
theorem search_brave_non_success_witness :
    search_brave (Except.ok serverErrorResponse) = Except.ok [] ∧
    search_brave (Except.ok serverErrorResponse) =
      search_brave (Except.ok emptyOkResponse) :=
  search_brave_non_success serverErrorResponse (by decide)

/-- Claim C10: a 200 response whose body lacks the nested `web` object,
or whose `web` object lacks the `results` list, yields the empty list
rather than a lookup error. -/
theorem search_brave_missing_keys (b : BraveBody)
    (h : b.web = none ∨ ∃ w, b.web = some w ∧ w.results = none) :
    search_brave (Except.ok ⟨200, b⟩) = Except.ok [] := by
  show (if (200 : Nat) = 200 then
      Except.ok ((b.web.getD ⟨none⟩).results.getD []) else Except.ok [])
    = Except.ok []
  rw [if_pos rfl]
  rcases h with h | ⟨w, hw, hr⟩
  · rw [h]
    rfl
  · rw [hw]
    show Except.ok (w.results.getD []) = Except.ok []
    rw [hr]
    rfl

/-- Witness for C10: the body without a `web` key and the body whose
`web` object has no `results` key both yield the empty list. -/
theorem search_brave_missing_keys_witness :
    search_brave (Except.ok ⟨200, bodyNoWeb⟩) = Except.ok [] ∧
    search_brave (Except.ok ⟨200, bodyNoResults⟩) = Except.ok [] :=
  ⟨search_brave_missing_keys bodyNoWeb (Or.inl rfl),
   search_brave_missing_keys bodyNoResults (Or.inr ⟨⟨none⟩, rfl, rfl⟩)⟩

lemma store_run_count (now : Nat → String) (resp : Nat → StoredRow → InsertResp) :
    ∀ (items : List String) (k : Nat),
      store_run now (fun j row => Except.ok (resp j row)) k items =
        Except.ok (((List.enumFrom k items).filter
          (fun p => rowCounted (resp p.1 ⟨now p.1, p.2⟩))).length) := by
  intro items
  induction items with
  | nil => intro k; rfl
  | cons item rest ih =>
    intro k
    have step : store_run now (fun j row => Except.ok (resp j row)) k (item :: rest) =
        Except.bind (store_run now (fun j row => Except.ok (resp j row)) (k + 1) rest)
          (fun restCount => Except.ok
            ((if rowCounted (resp k ⟨now k, item⟩) then 1 else 0) + restCount)) := rfl
    rw [step, ih (k + 1)]
    show Except.ok ((if rowCounted (resp k ⟨now k, item⟩) then 1 else 0) +
        ((List.enumFrom (k + 1) rest).filter
          (fun p => rowCounted (resp p.1 ⟨now p.1, p.2⟩))).length) = _
    by_cases hc : rowCounted (resp k ⟨now k, item⟩)
    · simp [List.enumFrom, List.filter_cons, hc, Nat.add_comm]
    · simp [List.enumFrom, List.filter_cons, hc]

/-- Claim C2: `store_in_supabase` counts a row exactly when its insert
response carries a non-empty data payload; rows whose response has no
(or an empty) payload are skipped without stopping the loop, so a batch
of two with one failing and one succeeding insert returns 1. -/
theorem store_in_supabase_counts (now : Nat → String)
    (resp : Nat → StoredRow → InsertResp) (items : List String) :
    store_in_supabase now (fun k row => Except.ok (resp k row)) items =
      Except.ok (((List.enumFrom 0 items).filter
        (fun p => rowCounted (resp p.1 ⟨now p.1, p.2⟩))).length) ∧
    ∀ a b : String, rowCounted (resp 0 ⟨now 0, a⟩) = false →
      rowCounted (resp 1 ⟨now 1, b⟩) = true →
      store_in_supabase now (fun k row => Except.ok (resp k row)) [a, b] =
        Except.ok 1 := by
  refine ⟨store_run_count now resp items 0, fun a b h0 h1 =>
    (store_run_count now resp [a, b] 0).trans ?_⟩
  simp [List.enumFrom, List.filter_cons, h0, h1]

/-- Witness for C2: a batch of two rows whose first insert response has
an empty data list and whose second has a non-empty one returns 1. -/
theorem store_in_supabase_counts_witness :
    store_in_supabase sampleNow (fun k row => Except.ok (sampleResp k row)) ["a", "b"] =
      Except.ok 1 :=
  (store_in_supabase_counts sampleNow sampleResp ["a", "b"]).2 "a" "b"
    (by decide) (by decide)

lemma store_run_le (now : Nat → String)
    (insert : Nat → StoredRow → Except PipeError InsertResp) :
    ∀ (items : List String) (k n : Nat),
      store_run now insert k items = Except.ok n → n ≤ items.length := by
  intro items
  induction items with
  | nil =>
    intro k n h
    have h' : (Except.ok 0 : Except PipeError Nat) = Except.ok n := h
    cases h'
    exact Nat.le_refl 0
  | cons item rest ih =>
    intro k n h
    have h' : Except.bind (insert k ⟨now k, item⟩) (fun result =>
        Except.bind (store_run now insert (k + 1) rest) (fun restCount =>
          Except.ok ((if rowCounted result then 1 else 0) + restCount))) =
        Except.ok n := h
    cases hins : insert k ⟨now k, item⟩ with
    | error e => rw [hins] at h'; simp [Except.bind] at h'
    | ok result =>
      rw [hins] at h'
      cases hrest : store_run now insert (k + 1) rest with
      | error e => rw [hrest] at h'; simp [Except.bind] at h'
      | ok c =>
        rw [hrest] at h'
        have hn : (if rowCounted result then 1 else 0) + c = n := by
          simpa [Except.bind] using h'
        have hc := ih (k + 1) c hrest
        have hb : (if rowCounted result then 1 else 0) ≤ 1 := by
          split <;> omega
        simp only [List.length_cons]
        omega

/-- Claim C9: whatever the per-row insert responses are, a returned
count of `store_in_supabase` is between 0 and the number of input
records. -/
theorem store_count_bounded (now : Nat → String)
    (insert : Nat → StoredRow → Except PipeError InsertResp)
    (items : List String) (n : Nat)
    (h : store_in_supabase now insert items = Except.ok n) :
    0 ≤ n ∧ n ≤ items.length :=
  ⟨Nat.zero_le n, store_run_le now insert items 0 n h⟩

/-- Witness for C9: a batch of two rows with every insert succeeding
returns 2, which is within the bounds. -/
theorem store_count_bounded_witness :
    0 ≤ 2 ∧ 2 ≤ (["a", "b"] : List String).length :=
  store_count_bounded sampleNow sampleInsertOk ["a", "b"] 2 (by decide)

/-- Counterexample for C4: a raised network-client exception during the
search request, or during an insert, is not caught inside the method —
the call propagates the error instead of degrading to zero results /
an uncounted row. -/
theorem network_exception_not_caught :
    search_brave (Except.error PipeError.reqException) =
      Except.error PipeError.reqException ∧
    search_brave (Except.error PipeError.reqException) ≠ Except.ok [] ∧
    store_in_supabase sampleNow (fun _ _ => Except.error PipeError.reqException) ["x"] =
      Except.error PipeError.reqException := by
  refine ⟨rfl, ?_, rfl⟩
  decide

/-- Claim C4 (amended): non-success HTTP statuses during a search
degrade to an empty result list, and insert responses without a
non-empty data payload leave the row uncounted while the loop
continues; but exceptions raised by the underlying network clients
inside `search_brave` or `store_in_supabase` are not caught there and
propagate to the caller. -/
theorem errors_propagate_statuses_degrade :
    (∀ e : PipeError, search_brave (Except.error e) = Except.error e) ∧
    (∀ r : HttpResponse, r.status_code ≠ 200 →
      search_brave (Except.ok r) = Except.ok []) ∧
    (∀ (now : Nat → String) (e : PipeError) (item : String) (rest : List String),
      store_in_supabase now (fun _ _ => Except.error e) (item :: rest) =
        Except.error e) ∧
    (∀ (now : Nat → String) (a b : String),
      store_in_supabase now (fun _ _ => Except.ok ⟨none⟩) [a, b] = Except.ok 0) := by
  refine ⟨fun _ => rfl, fun r h => ?_, fun _ _ _ _ => rfl, fun _ _ _ => rfl⟩
  show (if r.status_code = 200 then
      Except.ok ((r.body.web.getD ⟨none⟩).results.getD []) else Except.ok [])
    = Except.ok []
  rw [if_neg h]

/-- Witness for C4 (amended): a raised exception propagates out of the
search call, an HTTP 500 degrades to the empty list, and a two-row
batch whose responses carry no data attribute returns 0. -/
theorem errors_propagate_statuses_degrade_witness :
    search_brave (Except.error PipeError.indexError) =
      Except.error PipeError.indexError ∧
    search_brave (Except.ok serverErrorResponse) = Except.ok [] ∧
    store_in_supabase sampleNow (fun _ _ => Except.ok ⟨none⟩) ["a", "b"] =
      Except.ok 0 := by
  have h := errors_propagate_statuses_degrade
  exact ⟨h.1 PipeError.indexError, h.2.1 serverErrorResponse (by decide),
    h.2.2.2 sampleNow "a" "b"⟩

/-- Claim C8: construction raises whenever any one of the four
credential variables is missing, and the credential checks pass when
all four are present and non-empty (truthy). -/
theorem init_requires_credentials (env : EnvVars) :
    ((env.brave_api_key = none ∨ env.openai_api_key = none ∨
        env.supabase_url = none ∨ env.supabase_key = none) →
      ∃ msg, infoAgentInit env = Except.error msg) ∧
    (truthyStr env.brave_api_key = true → truthyStr env.openai_api_key = true →
      truthyStr env.supabase_url = true → truthyStr env.supabase_key = true →
      infoAgentInit env = Except.ok env) := by
  constructor
  · intro h
    unfold infoAgentInit
    split
    · exact ⟨_, rfl⟩
    · split
      · exact ⟨_, rfl⟩
      · rename_i h1 h2
        exfalso
        rcases h with h | h | h | h
        · exact h1 (by simp [truthyStr, h])
        · exact h1 (by simp [truthyStr, h])
        · exact h2 (by simp [truthyStr, h])
        · exact h2 (by simp [truthyStr, h])
  · intro h1 h2 h3 h4
    simp [infoAgentInit, h1, h2, h3, h4]

/-- Witness for C8: with the Brave key unset construction fails, and
with all four credentials set and non-empty the checks pass. -/
theorem init_requires_credentials_witness :
    (∃ msg, infoAgentInit envMissingBrave = Except.error msg) ∧
    infoAgentInit envAllSet = Except.ok envAllSet :=
  ⟨(init_requires_credentials envMissingBrave).1 (Or.inl rfl),
   (init_requires_credentials envAllSet).2 (by decide) (by decide) (by decide) (by decide)⟩

lemma fetchGo_sum (env : PipelineEnv) :
    ∀ (n i : Nat) (f : Nat → Nat),
      (∀ j ∈ List.range' i n, pipeline_iteration env j = Except.ok (f j)) →
      fetchGo env i n = Except.ok (((List.range' i n).map f).sum) := by
  intro n
  induction n with
  | zero => intro i f _; rfl
  | succ n ih =>
    intro i f h
    have hi : pipeline_iteration env i = Except.ok (f i) :=
      h i (by rw [List.range'_succ]; exact List.mem_cons_self i _)
    have hrest := ih (i + 1) f (fun j hj =>
      h j (by rw [List.range'_succ]; exact List.mem_cons_of_mem _ hj))
    have step : fetchGo env i (n + 1) =
        Except.bind (pipeline_iteration env i) (fun stored =>
          Except.bind (fetchGo env (i + 1) n) (fun rest =>
            Except.ok (stored + rest))) := rfl
    rw [step, hi, hrest]
    show Except.ok (f i + ((List.range' (i + 1) n).map f).sum) = _
    rw [List.range'_succ]
    rfl

/-- Claim C5: `fetch_financial_news` runs exactly `num_queries`
sequential iterations and, when every iteration completes, returns the
sum of the per-iteration stored counts. -/
theorem fetch_financial_news_total (env : PipelineEnv) (num_queries : Nat)
    (f : Nat → Nat)
    (h : ∀ j ∈ List.range' 0 num_queries,
      pipeline_iteration env j = Except.ok (f j)) :
    fetch_financial_news env num_queries =
      Except.ok (((List.range' 0 num_queries).map f).sum) :=
  fetchGo_sum env num_queries 0 f h

/-- Witness for C5: with two queries, each search returning two results
and every insert succeeding with a non-empty payload, the run returns
a total of 4. -/
theorem fetch_financial_news_total_witness :
    fetch_financial_news samplePipelineEnv 2 = Except.ok 4 := by
  have h := fetch_financial_news_total samplePipelineEnv 2 (fun _ => 2) (by decide)
  exact h.trans (by decide)

end InfoAgent
